import Mathlib

/-!
Verification of the youtube-downloader service (Flask app `app.py`,
`resource_manager.py`, `whisper_transcription.py`) against its
natural-language specification.  The relevant Python functions are
shallowly embedded as executable Lean definitions: dictionaries become
association lists, wall-clock times become naturals, audio samples become
signed integers (raw 16-bit PCM values, the float value being x / 32768),
and nondeterministic outcomes (worker results, transcription results,
detection results) become explicit parameters.
-/

/-- A value of the in-memory `download_progress` dict in `app.py`.
Each entry is a small dict with a `status` key plus optional detail keys. -/
structure ProgressEntry where
  status : String
  percent : Option String
  speed : Option String
  message : Option String
  error : Option String
deriving DecidableEq, Repr

/-- Entry written by `ProgressHook` on a `downloading` event (app.py:224). -/
def downloadingEntry (percent speed : String) : ProgressEntry :=
  ⟨"downloading", some percent, some speed, none, none⟩

/-- Entry written when a download moves to post-processing (app.py:233, 689). -/
def processingEntry : ProgressEntry :=
  ⟨"processing", none, none, some "Download completed, processing files...", none⟩

/-- Final success entry (app.py:816). -/
def finishedEntry : ProgressEntry :=
  ⟨"finished", none, none, some "Download completed successfully!", none⟩

/-- An error entry with the given error text (app.py:722, 729, 824, 833). -/
def errorEntry (msg : String) : ProgressEntry :=
  ⟨"error", none, none, none, some msg⟩

/-- The entry written by the 3-minute timeout path (app.py:700). -/
def timedOutEntry : ProgressEntry :=
  errorEntry "Download timed out after 3 minutes"

/-- The simulated-progress entry written while polling (app.py:712). -/
def simulatedEntry (percent : Nat) : ProgressEntry :=
  ⟨"downloading", some (toString percent ++ "%"), some "Downloading...",
    some "Download in progress", none⟩

/-- A job status is terminal when it is `finished` or `error`. -/
def ProgressEntry.isTerminal (e : ProgressEntry) : Bool :=
  e.status = "finished" || e.status = "error"

/-- The `download_progress` dict: download id to progress entry. -/
abbrev ProgressMap := List (String × ProgressEntry)

/-- Dict write `download_progress[k] = v`. -/
def pInsert (k : String) (v : ProgressEntry) (m : ProgressMap) : ProgressMap :=
  (k, v) :: m.filter (fun p => p.1 ≠ k)

/-- Dict read `download_progress.get(k)`. -/
def pLookup (k : String) (m : ProgressMap) : Option ProgressEntry :=
  (m.find? (fun p => p.1 = k)).map Prod.snd

/-- The `progress_timestamps` dict: download id to last-update time. -/
abbrev TimestampMap := List (String × Nat)

/-! ## resource_manager.py : ResourceManager -/

/-- State of the `ResourceManager` set up in `__init__`
(resource_manager.py:11-18).  The per-user concurrent counter dict is an
association list with integer values.  `maxUserFiles` is `Option Nat`
because `__init__` never assigns `self.max_user_files`: the attribute is
absent (`none`), and reading it raises `AttributeError`. -/
structure ResourceManager where
  maxFileAgeHours : Nat
  maxDiskUsageGb : Nat
  maxConcurrentDownloads : Nat
  cleanupInterval : Nat
  userConcurrentDownloads : List (String × Int)
  maxUserFiles : Option Nat
deriving DecidableEq, Repr

/-- `ResourceManager.__init__` (resource_manager.py:11-18): 24 h file age,
5 GB disk cap, 3 concurrent downloads per user, 30-minute cleanup period,
empty counter dict, and no `max_user_files` attribute. -/
def ResourceManager.init : ResourceManager :=
  ⟨24, 5, 3, 1800, [], none⟩

/-- `self.user_concurrent_downloads.get(user_id, 0)`. -/
def rmCount (rm : ResourceManager) (userId : String) : Int :=
  ((rm.userConcurrentDownloads.find? (fun p => p.1 = userId)).map Prod.snd).getD 0

/-- Whether `user_id` has an entry in the counter dict. -/
def rmHasUser (rm : ResourceManager) (userId : String) : Bool :=
  rm.userConcurrentDownloads.any (fun p => p.1 = userId)

/-- Write `self.user_concurrent_downloads[user_id] = v`. -/
def rmSet (rm : ResourceManager) (userId : String) (v : Int) : ResourceManager :=
  { rm with userConcurrentDownloads :=
      (userId, v) :: rm.userConcurrentDownloads.filter (fun p => p.1 ≠ userId) }

/-- `del self.user_concurrent_downloads[user_id]`. -/
def rmErase (rm : ResourceManager) (userId : String) : ResourceManager :=
  { rm with userConcurrentDownloads :=
      rm.userConcurrentDownloads.filter (fun p => p.1 ≠ userId) }

/-- `ResourceManager.can_start_download` (resource_manager.py:26-32):
false when the user's current count has reached `max_concurrent_downloads`. -/
def can_start_download (rm : ResourceManager) (userId : String) : Bool :=
  if (rm.maxConcurrentDownloads : Int) ≤ rmCount rm userId then false else true

/-- `ResourceManager.start_download` (resource_manager.py:34-39):
initialise the user's entry to 0 if absent, then increment it. -/
def start_download (rm : ResourceManager) (userId : String) : ResourceManager :=
  rmSet rm userId (rmCount rm userId + 1)

/-- `ResourceManager.finish_download` (resource_manager.py:41-47):
only if the user has an entry, set it to `max 0 (count - 1)` and delete
the entry when that value is zero. -/
def finish_download (rm : ResourceManager) (userId : String) : ResourceManager :=
  if rmHasUser rm userId then
    let v := max 0 (rmCount rm userId - 1)
    if v = 0 then rmErase rm userId else rmSet rm userId v
  else rm

/-! ## app.py : the /download route -/

/-- Responses the `/download` route can produce (app.py:359-409). -/
inductive DownloadResponse where
  | badRequest
  | rateLimited
  | storageFull
  | accepted (downloadId : String)
deriving DecidableEq, Repr

/-- The `/download` route (app.py:359-406), for a request with a session
user id, modelling whether a URL was supplied and whether
`check_disk_space` holds.  Before admission succeeds nothing touches the
progress store; on success `start_download` is called and the background
`download_video` thread (which is what later writes progress entries) is
spawned with a fresh download id. -/
def download_route (rm : ResourceManager) (progress : ProgressMap)
    (urlPresent : Bool) (diskOk : Bool) (userId downloadId : String) :
    DownloadResponse × ResourceManager × ProgressMap :=
  if ¬ urlPresent then (.badRequest, rm, progress)
  else if ¬ can_start_download rm userId then (.rateLimited, rm, progress)
  else if ¬ diskOk then (.storageFull, rm, progress)
  else (.accepted downloadId, start_download rm userId, progress)

/-! ## C1 and C4 -/

/-- C1: a user already at `max_concurrent_downloads` (default 3) concurrent
downloads gets a rate-limited response from the `/download` route, with no
progress-store entry created for any job id and the user's concurrent
counter unchanged. -/
theorem c1_admission_denied (rm : ResourceManager) (progress : ProgressMap)
    (diskOk : Bool) (userId downloadId : String)
    (hmax : rm.maxConcurrentDownloads = 3)
    (hfull : (3 : Int) ≤ rmCount rm userId) :
    download_route rm progress true diskOk userId downloadId =
      (.rateLimited, rm, progress) := by
  unfold download_route can_start_download
  rw [hmax]
  simp [hfull]

/-- Witness for C1 at a concrete state: user `u1` holds 3 slots. -/
theorem c1_admission_denied_witness :
    (ResourceManager.init.maxConcurrentDownloads = 3 ∧
      (3 : Int) ≤ rmCount (rmSet ResourceManager.init "u1" 3) "u1") ∧
    download_route (rmSet ResourceManager.init "u1" 3)
        [("j0", finishedEntry)] true true "u1" "j1" =
      (.rateLimited, rmSet ResourceManager.init "u1" 3,
        [("j0", finishedEntry)]) := by
  refine ⟨⟨by decide, by decide⟩, ?_⟩
  exact c1_admission_denied _ _ _ _ _ (by decide) (by decide)

/-- One call recorded against the resource manager: `start_download` or
`finish_download` for a user. -/
inductive RMOp where
  | start (userId : String)
  | finish (userId : String)
deriving DecidableEq, Repr

/-- Apply a sequence of start/finish calls to a resource manager. -/
def applyOps (rm : ResourceManager) : List RMOp → ResourceManager
  | [] => rm
  | .start u :: rest => applyOps (start_download rm u) rest
  | .finish u :: rest => applyOps (finish_download rm u) rest

/-- All stored per-user counters are nonnegative. -/
def countersNonneg (rm : ResourceManager) : Prop :=
  ∀ p ∈ rm.userConcurrentDownloads, 0 ≤ p.2

theorem countersNonneg_rmSet {rm : ResourceManager} {u : String} {v : Int}
    (h : countersNonneg rm) (hv : 0 ≤ v) : countersNonneg (rmSet rm u v) := by
  intro p hp
  rcases List.mem_cons.mp hp with h1 | h1
  · simpa [h1] using hv
  · exact h p (List.mem_of_mem_filter h1)

theorem countersNonneg_rmErase {rm : ResourceManager} {u : String}
    (h : countersNonneg rm) : countersNonneg (rmErase rm u) := by
  intro p hp
  exact h p (List.mem_of_mem_filter hp)

theorem rmCount_nonneg {rm : ResourceManager} (h : countersNonneg rm)
    (u : String) : 0 ≤ rmCount rm u := by
  unfold rmCount
  cases hfind : rm.userConcurrentDownloads.find? (fun p => p.1 = u) with
  | none => simp
  | some p =>
    have := h p (List.mem_of_find?_eq_some hfind)
    simpa using this

theorem countersNonneg_start {rm : ResourceManager} {u : String}
    (h : countersNonneg rm) : countersNonneg (start_download rm u) := by
  unfold start_download
  exact countersNonneg_rmSet h (by have := rmCount_nonneg h u; omega)

theorem countersNonneg_finish {rm : ResourceManager} {u : String}
    (h : countersNonneg rm) : countersNonneg (finish_download rm u) := by
  unfold finish_download
  by_cases hu : rmHasUser rm u
  · simp only [hu, if_true]
    by_cases hz : max 0 (rmCount rm u - 1) = 0
    · simp only [hz, if_pos rfl]
      exact countersNonneg_rmErase h
    · simp only [hz, if_neg hz]
      exact countersNonneg_rmSet h (le_max_left _ _)
  · simpa [hu] using h

theorem countersNonneg_applyOps {rm : ResourceManager}
    (h : countersNonneg rm) (ops : List RMOp) : countersNonneg (applyOps rm ops) := by
  induction ops generalizing rm with
  | nil => simpa [applyOps] using h
  | cons op rest ih =>
    cases op with
    | start u => exact ih (countersNonneg_start h)
    | finish u => exact ih (countersNonneg_finish h)

/-- C4: under any sequence of `start_download`/`finish_download` calls from
the initial manager, every stored per-user counter stays nonnegative;
`finish_download` floors the decrement at zero and removes the entry when
the new value is zero, and is a no-op for a user with no entry. -/
theorem c4_counter_never_negative :
    (∀ ops : List RMOp, ∀ p ∈ (applyOps ResourceManager.init ops).userConcurrentDownloads,
        0 ≤ p.2) ∧
    (∀ rm : ResourceManager, ∀ u : String, rmHasUser rm u = true →
        finish_download rm u =
          (if max 0 (rmCount rm u - 1) = 0 then rmErase rm u
           else rmSet rm u (max 0 (rmCount rm u - 1)))) ∧
    (∀ rm : ResourceManager, ∀ u : String, rmHasUser rm u = false →
        finish_download rm u = rm) := by
  refine ⟨?_, ?_, ?_⟩
  · intro ops p hp
    exact countersNonneg_applyOps (by intro q hq; simp [ResourceManager.init] at hq) ops p hp
  · intro rm u hu
    unfold finish_download
    simp [hu]
  · intro rm u hu
    unfold finish_download
    simp [hu]

/-- Witness for C4 on a concrete op sequence: two starts and three
finishes for `u1` (one more finish than starts) leave no negative counter,
and the no-op/erase clauses hold at concrete states. -/
theorem c4_counter_never_negative_witness :
    (∀ p ∈ (applyOps ResourceManager.init
        [.start "u1", .start "u1", .finish "u1", .finish "u1",
         .finish "u1"]).userConcurrentDownloads, 0 ≤ p.2) ∧
    rmHasUser (rmSet ResourceManager.init "u1" 1) "u1" = true ∧
    rmHasUser ResourceManager.init "u2" = false := by
  exact ⟨fun p hp => c4_counter_never_negative.1 _ p hp, by decide, by decide⟩

/-! ## Age-based eviction of progress records (app.py:103-116,
resource_manager.py:147-163) -/

/-- The key set collected by one eviction pass: ids whose last update is
more than `threshold` seconds before `now` (the `old_keys` /
`old_downloads` lists). -/
def oldKeys (threshold : Nat) (timestamps : TimestampMap) (now : Nat) : List String :=
  (timestamps.filter (fun p => decide (threshold < now - p.2))).map Prod.fst

/-- `cleanup_old_progress` (app.py:103-116), run on every `/progress`
read: pops every id older than 30 minutes from `download_progress` and
`progress_timestamps`, with no condition on the entry's status. -/
def cleanup_old_progress (progress : ProgressMap) (timestamps : TimestampMap)
    (now : Nat) : ProgressMap × TimestampMap :=
  let old := oldKeys 1800 timestamps now
  (progress.filter (fun p => decide (p.1 ∉ old)),
   timestamps.filter (fun p => decide (p.1 ∉ old)))

/-- The progress-eviction part of `ResourceManager.cleanup_memory`
(resource_manager.py:147-163), run by the janitor thread: pops every id
older than one hour, with no condition on the entry's status. -/
def cleanup_memory_progress (progress : ProgressMap) (timestamps : TimestampMap)
    (now : Nat) : ProgressMap × TimestampMap :=
  let old := oldKeys 3600 timestamps now
  (progress.filter (fun p => decide (p.1 ∉ old)),
   timestamps.filter (fun p => decide (p.1 ∉ old)))

theorem mem_oldKeys {threshold : Nat} {timestamps : TimestampMap} {now : Nat}
    {k : String} :
    k ∈ oldKeys threshold timestamps now ↔
      ∃ t, (k, t) ∈ timestamps ∧ threshold < now - t := by
  unfold oldKeys
  simp only [List.mem_map, List.mem_filter, decide_eq_true_eq]
  constructor
  · rintro ⟨⟨k', t⟩, ⟨hmem, ht⟩, rfl⟩
    exact ⟨t, hmem, ht⟩
  · rintro ⟨t, hmem, ht⟩
    exact ⟨(k, t), ⟨hmem, ht⟩, rfl⟩

/-- C2 counterexample: a record in the non-terminal `downloading` state
whose last update is 4000 s old is deleted both by the lazy cleanup and by
the janitor's memory cleanup. -/
theorem c2_nonterminal_evicted_counterexample :
    (downloadingEntry "50%" "1MB/s").isTerminal = false ∧
    (cleanup_old_progress [("d1", downloadingEntry "50%" "1MB/s")]
        [("d1", 0)] 4000).1 = [] ∧
    (cleanup_memory_progress [("d1", downloadingEntry "50%" "1MB/s")]
        [("d1", 0)] 4000).1 = [] := by
  refine ⟨by decide, ?_, ?_⟩ <;> decide

/-- C2 amended: the age-based cleanups keep a progress record exactly when
its id has no timestamp older than the threshold (30 min for the lazy
cleanup, 60 min for the janitor); the record's status — terminal or not —
plays no role in eviction. -/
theorem c2_eviction_is_age_only (progress : ProgressMap)
    (timestamps : TimestampMap) (now : Nat) (k : String) (e : ProgressEntry) :
    ((k, e) ∈ (cleanup_old_progress progress timestamps now).1 ↔
      ((k, e) ∈ progress ∧ ∀ t, (k, t) ∈ timestamps → now - t ≤ 1800)) ∧
    ((k, e) ∈ (cleanup_memory_progress progress timestamps now).1 ↔
      ((k, e) ∈ progress ∧ ∀ t, (k, t) ∈ timestamps → now - t ≤ 3600)) := by
  constructor
  · unfold cleanup_old_progress
    simp only [List.mem_filter, decide_eq_true_eq, mem_oldKeys]
    push_neg
    constructor
    · rintro ⟨h1, h2⟩
      exact ⟨h1, fun t ht => h2 t ht⟩
    · rintro ⟨h1, h2⟩
      exact ⟨h1, fun t ht => h2 t ht⟩
  · unfold cleanup_memory_progress
    simp only [List.mem_filter, decide_eq_true_eq, mem_oldKeys]
    push_neg
    constructor
    · rintro ⟨h1, h2⟩
      exact ⟨h1, fun t ht => h2 t ht⟩
    · rintro ⟨h1, h2⟩
      exact ⟨h1, fun t ht => h2 t ht⟩

/-- Witness for C2's amended statement: a fresh record is kept, and the
kept-record condition evaluates as stated at a concrete state. -/
theorem c2_eviction_is_age_only_witness :
    ("d2", processingEntry) ∈
      (cleanup_old_progress [("d2", processingEntry)] [("d2", 3000)] 4000).1 := by
  exact ((c2_eviction_is_age_only [("d2", processingEntry)] [("d2", 3000)]
    4000 "d2" processingEntry).1).mpr
    ⟨by decide, fun t ht => by
      have h : t = 3000 := by simpa using ht
      subst h; norm_num⟩

/-! ## resource_manager.py : cleanup_user_files (lines 80-136) -/

/-- A file in a user's download directory, as seen by
`cleanup_user_files`: name, modification time, size. -/
structure FileInfo where
  name : String
  mtime : Nat
  size : Nat
deriving DecidableEq, Repr

/-- Outcome of one `cleanup_user_files` pass over a user directory:
which file names were deleted (in deletion order), whether the directory
was removed, and whether the pass aborted on the `AttributeError` raised
by reading the never-assigned `self.max_user_files` (the blanket
`except Exception` at resource_manager.py:135 swallows it). -/
structure CleanupUserFilesResult where
  removed : List String
  dirRemoved : Bool
  attributeError : Bool
deriving DecidableEq, Repr

/-- `ResourceManager.cleanup_user_files` (resource_manager.py:80-136) for
a directory containing exactly `files`.  The files are sorted by
modification time (Python's stable sort), those older than the 24-hour
cutoff are deleted oldest-first, then the code evaluates
`len(remaining_files) > self.max_user_files`: when the attribute is
absent (`none`, as left by `__init__`) this raises `AttributeError`,
the handler swallows it, and neither the cap trim nor the
empty-directory removal runs.  With the attribute present (`some cap`)
the oldest remaining files are deleted until the cap is met and the
directory is removed when nothing is left. -/
def cleanup_user_files (maxUserFiles : Option Nat) (now : Nat)
    (files : List FileInfo) : CleanupUserFilesResult :=
  let cutoff := now - 24 * 3600
  let sorted := List.insertionSort (fun a b => a.mtime ≤ b.mtime) files
  let oldFiles := sorted.filter (fun f => decide (f.mtime < cutoff))
  let remaining := sorted.filter (fun f => decide (cutoff ≤ f.mtime))
  match maxUserFiles with
  | none =>
      { removed := oldFiles.map FileInfo.name
        dirRemoved := false
        attributeError := true }
  | some cap =>
      let excess := remaining.length - cap
      { removed := (oldFiles ++ remaining.take excess).map FileInfo.name
        dirRemoved := (remaining.drop excess).isEmpty
        attributeError := false }

/-- C9: `__init__` never assigns `max_user_files`, so a cleanup pass over
a user directory holding a single 24-hour-old file deletes the file but
aborts on `AttributeError` before the cap check and the empty-directory
removal — the emptied directory is left behind, although with the
attribute present the same pass would have removed it. -/
theorem c9_cleanup_user_files_aborts :
    ResourceManager.init.maxUserFiles = none ∧
    cleanup_user_files ResourceManager.init.maxUserFiles 100000
        [⟨"old.mp4", 0, 7⟩] =
      { removed := ["old.mp4"], dirRemoved := false, attributeError := true } ∧
    cleanup_user_files (some 100) 100000 [⟨"old.mp4", 0, 7⟩] =
      { removed := ["old.mp4"], dirRemoved := true, attributeError := false } := by
  refine ⟨rfl, ?_, ?_⟩ <;> decide

/-! ## app.py : ProgressHook and the download_video monitor loop -/

/-- `ProgressHook.__call__` (app.py:208-242): a `downloading` event writes
a `downloading` entry with the (ANSI-stripped) percent and speed strings;
a `finished` event writes the intermediate `processing` entry; any other
status leaves the store untouched. -/
def progressHook (progress : ProgressMap) (downloadId : String)
    (status percent speed : String) : ProgressMap :=
  if status = "downloading" then
    pInsert downloadId (downloadingEntry percent speed) progress
  else if status = "finished" then
    pInsert downloadId processingEntry progress
  else progress

/-- One iteration of the monitor loop in `download_video` (app.py:681-718)
observes either the worker future completing, or a 3-second poll timeout
with some wall-clock `elapsed` seconds since the loop started. -/
inductive Poll where
  | done
  | running (elapsed : Nat)
deriving DecidableEq, Repr

/-- How the monitor loop in `download_video` ends. -/
inductive MonitorExit where
  | completed
  | timedOut
  | stillPolling
deriving DecidableEq, Repr

/-- The simulated percent written while polling (app.py:707-710). -/
def simulatedPercent (elapsed : Nat) : Nat :=
  if elapsed < 60 then min (elapsed * 70 / 60) 70
  else min (70 + (elapsed - 60) * 25 / 120) 95

/-- The monitor loop of `download_video` (app.py:681-718), driven by a
sequence of poll observations.  Worker completion writes `processing` and
breaks; a poll with more than 180 s elapsed writes the timed-out error
entry and returns from `download_video`; otherwise a simulated
`downloading` entry is written and polling continues.  Nothing in this
loop cancels the worker future. -/
def monitorLoop (progress : ProgressMap) (downloadId : String) :
    List Poll → ProgressMap × MonitorExit
  | [] => (progress, .stillPolling)
  | .done :: _ => (pInsert downloadId processingEntry progress, .completed)
  | .running e :: rest =>
      if 180 < e then (pInsert downloadId timedOutEntry progress, .timedOut)
      else
        monitorLoop
          (pInsert downloadId (simulatedEntry (simulatedPercent e)) progress)
          downloadId rest

theorem pLookup_pInsert (k : String) (v : ProgressEntry) (m : ProgressMap) :
    pLookup k (pInsert k v m) = some v := by
  unfold pLookup pInsert
  rw [List.find?_cons_of_pos]
  · rfl
  · simp

/-- C10 counterexample: a poll past 180 s writes the timed-out error, but
the worker is not cancelled, and one later `ProgressHook` `downloading`
event from the still-running worker replaces the error with a non-terminal
status — which is what pollers then observe. -/
theorem c10_timeout_overwritten_counterexample :
    (monitorLoop [] "d1" [.running 181]).2 = .timedOut ∧
    pLookup "d1" (monitorLoop [] "d1" [.running 181]).1 = some timedOutEntry ∧
    pLookup "d1" (progressHook (monitorLoop [] "d1" [.running 181]).1 "d1"
        "downloading" "99.0%" "1.00MiB/s") =
      some (downloadingEntry "99.0%" "1.00MiB/s") ∧
    (downloadingEntry "99.0%" "1.00MiB/s").isTerminal = false := by
  refine ⟨by decide, by decide, by decide, by decide⟩

/-- C10 amended: when every earlier poll found the worker still running
within 180 s and a poll then finds it still running past 180 s, the
monitor writes the `Download timed out after 3 minutes` error entry for
the job and stops with a timed-out result — but the worker is not
cancelled, and a later progress-hook invocation can overwrite this entry
(see the counterexample), so pollers are not guaranteed to keep observing
it. -/
theorem c10_timeout_sets_error (progress : ProgressMap) (downloadId : String)
    (pre : List Nat) (e : Nat)
    (hpre : ∀ x ∈ pre, x ≤ 180) (he : 180 < e) :
    (monitorLoop progress downloadId
        (pre.map Poll.running ++ [Poll.running e])).2 = .timedOut ∧
    pLookup downloadId
        (monitorLoop progress downloadId
          (pre.map Poll.running ++ [Poll.running e])).1 = some timedOutEntry := by
  induction pre generalizing progress with
  | nil =>
    simp only [List.map_nil, List.nil_append, monitorLoop, if_pos he]
    exact ⟨trivial, pLookup_pInsert _ _ _⟩
  | cons x rest ih =>
    have hx : ¬ 180 < x := by
      have := hpre x (List.mem_cons_self x rest)
      omega
    simp only [List.map_cons, List.cons_append, monitorLoop, if_neg hx]
    exact ih _ (fun y hy => hpre y (List.mem_cons_of_mem x hy))

/-- Witness for C10's amended statement: one in-time poll then a poll at
181 s elapsed. -/
theorem c10_timeout_sets_error_witness :
    (∀ x ∈ [(10 : Nat)], x ≤ 180) ∧ 180 < 181 ∧
    ((monitorLoop [] "d1" ([10].map Poll.running ++ [Poll.running 181])).2
        = .timedOut ∧
      pLookup "d1"
        (monitorLoop [] "d1" ([10].map Poll.running ++ [Poll.running 181])).1
        = some timedOutEntry) := by
  refine ⟨by decide, by decide, ?_⟩
  exact c10_timeout_sets_error [] "d1" [10] 181 (by decide) (by decide)

/-! ## app.py : download_video exit paths (lines 411-840) -/

/-- The mutually exclusive ways the body of `download_video` can end.
`raised` is any exception escaping the outer try (caught at app.py:831);
`timeout` is the 3-minute return (app.py:698-704); `workerError` is a
worker exception message (app.py:721); `workerNoSuccess` is the fallback
error (app.py:728); `postError` is a post-processing exception
(app.py:822); `ok` is normal completion (app.py:816). -/
inductive DVOutcome where
  | raised (msg : String)
  | timeout
  | workerError (msg : String)
  | workerNoSuccess
  | postError (msg : String)
  | ok
deriving DecidableEq, Repr

/-- Result of one `download_video` execution: the progress store, the
resource manager, and how many times `finish_download` was invoked. -/
structure DVRun where
  progress : ProgressMap
  rm : ResourceManager
  finishCalls : Nat
deriving Repr

/-- The final progress write performed by the try-block of
`download_video` on each exit path (intermediate `initializing` /
`preparing` / `starting` / `downloading` writes elided, as each path
ends by overwriting the entry).  The try-block contains no call to
`finish_download`. -/
def download_video_try (progress : ProgressMap) (downloadId : String) :
    DVOutcome → ProgressMap
  | .raised msg => pInsert downloadId (errorEntry msg) progress
  | .timeout => pInsert downloadId timedOutEntry progress
  | .workerError msg => pInsert downloadId (errorEntry msg) progress
  | .workerNoSuccess =>
      pInsert downloadId (errorEntry "Download failed for unknown reason") progress
  | .postError msg =>
      pInsert downloadId (errorEntry ("Post-processing failed: " ++ msg)) progress
  | .ok => pInsert downloadId finishedEntry progress

/-- The `finally` block of `download_video` (app.py:837-840): the single
call site of `finish_download`, run after the try-block on every path. -/
def download_video_finally (userId : String) (progress : ProgressMap)
    (rm : ResourceManager) (finishCalls : Nat) : DVRun :=
  { progress := progress, rm := finish_download rm userId,
    finishCalls := finishCalls + 1 }

/-- `download_video` (app.py:411-840): run the try-block to its exit
path, then the `finally` block.  The body makes zero `finish_download`
calls, the `finally` exactly one. -/
def download_video (progress : ProgressMap) (rm : ResourceManager)
    (downloadId userId : String) (o : DVOutcome) : DVRun :=
  download_video_finally userId (download_video_try progress downloadId o) rm 0

/-- C3: every execution of `download_video` — normal completion, a worker
error status, the unknown-failure status, a post-processing error, the
timeout return, and any raised exception — calls `finish_download` for
the owning user exactly once, via the `finally` block. -/
theorem c3_finish_download_exactly_once (progress : ProgressMap)
    (rm : ResourceManager) (downloadId userId : String) (o : DVOutcome) :
    (download_video progress rm downloadId userId o).finishCalls = 1 ∧
    (download_video progress rm downloadId userId o).rm =
      finish_download rm userId := by
  cases o <;> exact ⟨rfl, rfl⟩

/-! ## whisper_transcription.py : streaming segment splitter (lines 381-460)

The generator reads 16 kHz mono PCM from ffmpeg in 0.1-second reads of
1600 int16 samples, accumulates them in `audio_buffer`, counts
consecutive silent samples, and closes segments on natural pauses or at
the 30-second cap.  A frame is its list of raw int16 values; the float
sample seen by the Python code is `x / 32768`. -/

/-- One `process.stdout.read(1600 * 2)` result, as raw int16 samples. -/
abbrev Frame := List Int

/-- `np.mean(np.abs(audio_chunk))` for a frame of int16 samples scaled by
1/32768 (whisper_transcription.py:437, 443). -/
def frameMeanAbs (f : Frame) : ℚ :=
  (f.map (fun x : Int => |(x : ℚ)| / 32768)).sum / f.length

/-- `chunk_energy < silence_threshold` with threshold 0.01
(whisper_transcription.py:388, 444). -/
def silentFrame (f : Frame) : Bool :=
  decide (frameMeanAbs f < 1 / 100)

/-- `silence_samples = int(0.5 * 16000)` (whisper_transcription.py:394). -/
def silenceSamples : Nat := 8000

/-- `max_samples = int(30 * 16000)` (whisper_transcription.py:395). -/
def maxSamples : Nat := 480000

/-- `min_samples = int(1 * 16000)` (whisper_transcription.py:396). -/
def minSamples : Nat := 16000

/-- The splitter's loop state: `audio_buffer` and `consecutive_silence`. -/
structure SplitState where
  buffer : List Int
  consecutiveSilence : Nat
deriving DecidableEq, Repr

/-- One iteration of the read loop for a non-EOF frame
(whisper_transcription.py:436-496): extend the buffer, update the silence
run, and close (emit) the buffer as a segment when either the silence run
has reached `silence_samples` with at least `min_samples` buffered, or
the buffer has reached `max_samples`. -/
def stepFrame (s : SplitState) (f : Frame) : SplitState × Option (List Int) :=
  let buffer := s.buffer ++ f
  let cs := if silentFrame f then s.consecutiveSilence + f.length else 0
  if (silenceSamples ≤ cs ∧ minSamples ≤ buffer.length) ∨
      maxSamples ≤ buffer.length then
    (⟨[], 0⟩, some buffer)
  else (⟨buffer, cs⟩, none)

/-- The EOF branch (whisper_transcription.py:407-434): emit the remaining
buffer as a final segment only when it is nonempty and holds at least
`min_samples`; otherwise discard it. -/
def flushBuffer (s : SplitState) : Option (List Int) :=
  if s.buffer ≠ [] ∧ minSamples ≤ s.buffer.length then some s.buffer else none

/-- The whole read loop: fold `stepFrame` over the incoming frames and
flush at EOF, collecting the emitted segments in order. -/
def runSplitter (s : SplitState) : List Frame → List (List Int)
  | [] =>
      match flushBuffer s with
      | some seg => [seg]
      | none => []
  | f :: rest =>
      match stepFrame s f with
      | (s', some seg) => seg :: runSplitter s' rest
      | (s', none) => runSplitter s' rest

theorem frameMeanAbs_eq (f : Frame) :
    frameMeanAbs f = (f.map (fun x : Int => |(x : ℚ)|)).sum / (32768 * f.length) := by
  have h : ∀ l : List Int,
      (l.map (fun x : Int => |(x : ℚ)| / 32768)).sum
        = (l.map (fun x : Int => |(x : ℚ)|)).sum / 32768 := by
    intro l
    induction l with
    | nil => simp
    | cons a t ih => simp [ih, add_div]
  unfold frameMeanAbs
  rw [h, div_div]

/-- For a nonempty frame, the code's silence test agrees with the exact
inequality `100 · Σ|xᵢ| < 32768 · n` on the raw samples. -/
theorem silentFrame_iff {f : Frame} (hf : f ≠ []) :
    silentFrame f = true ↔
      100 * (f.map (fun x : Int => |(x : ℚ)|)).sum < 32768 * f.length := by
  unfold silentFrame
  rw [decide_eq_true_eq, frameMeanAbs_eq]
  have hn : (0 : ℚ) < 32768 * f.length := by
    have hpos : 0 < f.length := List.length_pos.mpr hf
    have h2 : (0 : ℚ) < (f.length : ℚ) := by exact_mod_cast hpos
    nlinarith
  rw [div_lt_div_iff₀ hn (by norm_num : (0 : ℚ) < 100)]
  constructor <;> intro h <;> nlinarith

theorem stepFrame_emit_iff (s : SplitState) (f : Frame) :
    ((stepFrame s f).2).isSome = true ↔
      ((silenceSamples ≤ (if silentFrame f then s.consecutiveSilence + f.length else 0) ∧
          minSamples ≤ (s.buffer ++ f).length) ∨
        maxSamples ≤ (s.buffer ++ f).length) := by
  simp only [stepFrame]
  split <;> split <;> simp_all

theorem stepFrame_emit_value (s : SplitState) (f : Frame) :
    (stepFrame s f).2 = none ∨ (stepFrame s f).2 = some (s.buffer ++ f) := by
  simp only [stepFrame]
  split <;> split <;> simp

/-- C5: the splitter closes the current segment, emitting the whole
buffer including the current frame, exactly when either the consecutive
silent samples (a frame being silent when its mean absolute amplitude is
below 0.01) reach 0.5 s = 8000 samples while the buffer holds at least
1 s = 16000 samples, or the buffer has reached 30 s = 480000 samples;
and at stream end the buffered audio is flushed as a final segment iff
it holds at least 1 s, otherwise discarded. -/
theorem c5_segment_boundaries (s : SplitState) (f : Frame) (hf : f ≠ []) :
    (((stepFrame s f).2).isSome = true ↔
      ((8000 ≤ (if 100 * (f.map (fun x : Int => |(x : ℚ)|)).sum < 32768 * f.length
                then s.consecutiveSilence + f.length else 0) ∧
          16000 ≤ s.buffer.length + f.length) ∨
        480000 ≤ s.buffer.length + f.length)) ∧
    ((stepFrame s f).2 = none ∨ (stepFrame s f).2 = some (s.buffer ++ f)) ∧
    (flushBuffer s = some s.buffer ↔ 16000 ≤ s.buffer.length) ∧
    (flushBuffer s = none ↔ s.buffer.length < 16000) := by
  have hcs : (if 100 * (f.map (fun x : Int => |(x : ℚ)|)).sum < 32768 * f.length
        then s.consecutiveSilence + f.length else 0)
      = (if silentFrame f then s.consecutiveSilence + f.length else 0) := by
    by_cases h : silentFrame f = true
    · rw [if_pos h, if_pos ((silentFrame_iff hf).mp h)]
    · rw [if_neg (fun hc => h ((silentFrame_iff hf).mpr hc)), if_neg h]
  refine ⟨?_, stepFrame_emit_value s f, ?_, ?_⟩
  · rw [hcs, ← List.length_append]
    exact stepFrame_emit_iff s f
  · unfold flushBuffer minSamples
    split
    next h => simp [h.2]
    next h =>
      have hno : ¬ 16000 ≤ s.buffer.length := by
        intro hlen
        exact h ⟨List.ne_nil_of_length_pos (by omega), hlen⟩
      simp [hno]
  · unfold flushBuffer minSamples
    split
    next h =>
      have h2 := h.2
      simp only [reduceCtorEq, false_iff]
      omega
    next h =>
      have hno : ¬ 16000 ≤ s.buffer.length := by
        intro hlen
        exact h ⟨List.ne_nil_of_length_pos (by omega), hlen⟩
      simp only [true_iff]
      omega

/-- Witness for C5 at the concrete state of a 1600-sample silence run and
a one-sample frame (all definitions evaluate). -/
theorem c5_segment_boundaries_witness :
    (([0] : List Int) ≠ []) ∧
    ((((stepFrame ⟨[], 1600⟩ [0]).2).isSome = true ↔
      ((8000 ≤ (if 100 * (([0] : List Int).map (fun x : Int => |(x : ℚ)|)).sum <
                  32768 * ([0] : List Int).length
                then (1600 : Nat) + ([0] : List Int).length else 0) ∧
          16000 ≤ ([] : List Int).length + ([0] : List Int).length) ∨
        480000 ≤ ([] : List Int).length + ([0] : List Int).length)) ∧
    ((stepFrame ⟨[], 1600⟩ [0]).2 = none ∨
      (stepFrame ⟨[], 1600⟩ [0]).2 = some (([] : List Int) ++ [0])) ∧
    (flushBuffer ⟨[], 1600⟩ = some ([] : List Int) ↔
      16000 ≤ ([] : List Int).length) ∧
    (flushBuffer ⟨[], 1600⟩ = none ↔ ([] : List Int).length < 16000)) := by
  exact ⟨by decide, c5_segment_boundaries ⟨[], 1600⟩ [0] (by decide)⟩

/-! ## app.py : auto-language streaming transcription (lines 1219-1356)

`generate_streaming_response` reads 30-second chunks from ffmpeg,
transcribes each with SenseVoice or Whisper, and streams SSE chunk
events.  Each read chunk is modelled with its sample count and with the
outcomes of the backend calls on it: the Whisper language-detection
result (`none` when the detection body fails internally) and the text
returned by each backend (`none` when the call fails or returns no
text). -/

/-- Python's `str.strip()`: drop leading and trailing whitespace. -/
def pyStrip (s : String) : String :=
  String.mk (((s.toList.dropWhile Char.isWhitespace).reverse.dropWhile
    Char.isWhitespace).reverse)

/-- The chunk-text quality filter of `generate_streaming_response`
(app.py:1279-1281 and 1313-1316): require a successful result with truthy
text, strip it, and keep it only when non-empty and longer than one
character. -/
def appTextFilter (res : Option String) : Option String :=
  match res with
  | none => none
  | some t =>
      if t ≠ "" then
        let s := pyStrip t
        if s ≠ "" ∧ 1 < s.length then some s else none
      else none

/-- The chunk-text filter of the Whisper streaming generator
(whisper_transcription.py:479-482 and 421-423): require a successful
result with truthy text, strip it, and keep any non-empty remainder —
there is no single-character check here. -/
def whisperGenTextFilter (res : Option String) : Option String :=
  match res with
  | none => none
  | some t =>
      if t ≠ "" then
        let s := pyStrip t
        if s ≠ "" then some s else none
      else none

/-- The Whisper generator's handling of one segment's transcription
result (whisper_transcription.py:479-491): on a kept text, append it to
`transcripts` and yield it as an SSE chunk; otherwise emit nothing. -/
def whisperGenHandleResult (transcripts : List String) (res : Option String) :
    List String × Option String :=
  match whisperGenTextFilter res with
  | some s => (transcripts ++ [s], some s)
  | none => (transcripts, none)

/-- `WhisperTranscriber.detect_language` (whisper_transcription.py:65-108):
returns `en` when no model is loaded, and catches every internal failure
and returns `en` (any exception raised by the detection body is swallowed
at lines 106-108); otherwise the detected language.  Consequently the
call never raises to its caller. -/
def detect_language (modelLoaded : Bool) (detection : Option String) : String :=
  if ¬ modelLoaded then "en" else detection.getD "en"

/-- `sensevoice_optimal_languages` (app.py:1110). -/
def sensevoiceOptimalLanguages : List String :=
  ["zh", "zh-CN", "zh-TW", "yue", "ja", "ko"]

/-- One read chunk of the SSE loop, with the outcomes of the backend
calls on it: sample count, Whisper detection outcome (`none` = the
detection body failed internally), SenseVoice text, Whisper text. -/
structure Chunk where
  len : Nat
  detection : Option String
  svText : Option String
  whText : Option String
deriving DecidableEq, Repr

/-- The loop state of `generate_streaming_response`, extended with an
observation trace: `routes` records, per transcribed chunk, which backend
was called and with which language argument; `emitted` records the SSE
chunk events (chunk number, backend, text); `detectCalls` counts the
invocations of `detect_language`. -/
structure SSEState where
  chunkCount : Nat
  totalTranscript : List String
  useLanguage : Option String
  detectedLanguage : Option String
  detectCalls : Nat
  routes : List (String × Option String)
  emitted : List (Nat × String × String)
deriving DecidableEq, Repr

/-- State set up before the read loop (app.py:1234-1250): counters zero,
`use_language` is the explicit language, or `None` for auto — except
that a failed `WhisperTranscriber` construction for an auto job falls
back to `zh`. -/
def initSSEState (language : String) (whisperAvailable initOk : Bool) : SSEState :=
  { chunkCount := 0
    totalTranscript := []
    useLanguage :=
      if language ≠ "auto" then some language
      else if whisperAvailable ∧ ¬ initOk then some "zh" else none
    detectedLanguage := none
    detectCalls := 0
    routes := []
    emitted := [] }

/-- The backend choice of the shared routing block (app.py:1298-1311):
Whisper with the detected language when a language was detected, it is
not SenseVoice-optimal, and the Whisper transcriber exists; otherwise
SenseVoice with `use_language or 'zh'`.  Returns the backend name, the
language argument, and the backend's text result for this chunk. -/
def sseChoose (transcriberPresent : Bool) (st : SSEState) (c : Chunk) :
    String × String × Option String :=
  match st.detectedLanguage with
  | some d =>
      if ¬ sensevoiceOptimalLanguages.contains d ∧ transcriberPresent = true then
        ("whisper", d, c.whText)
      else ("sensevoice", st.useLanguage.getD "zh", c.svText)
  | none => ("sensevoice", st.useLanguage.getD "zh", c.svText)

/-- The emit block (app.py:1313-1327, duplicated at 1278-1291 for the
inline first-chunk Whisper call): record the backend call, and when the
text passes the quality filter append it to the transcript and send an
SSE chunk event. -/
def sseEmit (st : SSEState) (backend lang : String) (res : Option String) :
    SSEState :=
  let st := { st with routes := st.routes ++ [(backend, some lang)] }
  match appTextFilter res with
  | some s =>
      { st with totalTranscript := st.totalTranscript ++ [s]
                emitted := st.emitted ++ [(st.chunkCount, backend, s)] }
  | none => st

/-- Route one chunk through the shared routing block and emit. -/
def sseRouteAndEmit (transcriberPresent : Bool) (st : SSEState) (c : Chunk) :
    SSEState :=
  let choice := sseChoose transcriberPresent st c
  sseEmit st choice.1 choice.2.1 choice.2.2

/-- One iteration of the SSE read loop (app.py:1253-1327): chunks of at
most one second are skipped; on the first transcribable chunk of an auto
job with a Whisper transcriber, `detect_language` is invoked — a
SenseVoice-optimal result pins `use_language` and falls through to the
shared routing, any other result transcribes this chunk inline with
Whisper and `continue`s; every other chunk goes through the shared
routing block.  (The `except` arm at app.py:1293-1296, which would
default to `zh`, is unreachable: `detect_language` catches its own
failures and returns `en`.) -/
def processChunk (language : String) (transcriberPresent modelLoaded : Bool)
    (st : SSEState) (c : Chunk) : SSEState :=
  if c.len ≤ 16000 then st
  else
    let st := { st with chunkCount := st.chunkCount + 1 }
    if st.chunkCount = 1 ∧ language = "auto" ∧ transcriberPresent = true then
      let d := detect_language modelLoaded c.detection
      let st := { st with detectCalls := st.detectCalls + 1
                          detectedLanguage := some d }
      if sensevoiceOptimalLanguages.contains d then
        sseRouteAndEmit transcriberPresent { st with useLanguage := some d } c
      else
        sseEmit st "whisper" d c.whText
    else
      sseRouteAndEmit transcriberPresent st c

/-- The whole SSE read loop of `generate_streaming_response`: the Whisper
transcriber exists exactly for an auto job with Whisper importable and a
successful construction (app.py:1244-1250). -/
def runSSE (language : String) (whisperAvailable initOk modelLoaded : Bool)
    (chunks : List Chunk) : SSEState :=
  let transcriberPresent :=
    decide (language = "auto") && whisperAvailable && initOk
  chunks.foldl (processChunk language transcriberPresent modelLoaded)
    (initSSEState language whisperAvailable initOk)

theorem sseEmit_fields (st : SSEState) (b l : String) (res : Option String) :
    (sseEmit st b l res).detectCalls = st.detectCalls ∧
    (sseEmit st b l res).detectedLanguage = st.detectedLanguage ∧
    (sseEmit st b l res).useLanguage = st.useLanguage ∧
    (sseEmit st b l res).chunkCount = st.chunkCount ∧
    (sseEmit st b l res).routes = st.routes ++ [(b, some l)] := by
  cases h : appTextFilter res <;> simp [sseEmit, h]

theorem sseChoose_steady (d : String) (st : SSEState) (c : Chunk)
    (h2 : st.detectedLanguage = some d)
    (h3 : sensevoiceOptimalLanguages.contains d = true → st.useLanguage = some d) :
    sseChoose true st c =
      if sensevoiceOptimalLanguages.contains d
      then ("sensevoice", d, c.svText)
      else ("whisper", d, c.whText) := by
  unfold sseChoose
  rw [h2]
  dsimp only
  by_cases hd : sensevoiceOptimalLanguages.contains d
  · have hdm : d ∈ sensevoiceOptimalLanguages := by simpa using hd
    rw [if_neg (by simp [hdm]), if_pos hd, h3 hd]
    rfl
  · have hdm : d ∉ sensevoiceOptimalLanguages := by simpa using hd
    rw [if_pos (by simp [hdm]), if_neg hd]

theorem sseRouteAndEmit_steady (d : String) (st : SSEState) (c : Chunk)
    (h2 : st.detectedLanguage = some d)
    (h3 : sensevoiceOptimalLanguages.contains d = true → st.useLanguage = some d) :
    sseRouteAndEmit true st c =
      if sensevoiceOptimalLanguages.contains d
      then sseEmit st "sensevoice" d c.svText
      else sseEmit st "whisper" d c.whText := by
  unfold sseRouteAndEmit
  rw [sseChoose_steady d st c h2 h3]
  by_cases hd : sensevoiceOptimalLanguages.contains d
  · rw [if_pos hd, if_pos hd]
  · rw [if_neg hd, if_neg hd]

theorem processChunk_steady (d : String) (st : SSEState) (c : Chunk)
    (hc : 16000 < c.len) (h1 : st.chunkCount ≠ 0)
    (h2 : st.detectedLanguage = some d)
    (h3 : sensevoiceOptimalLanguages.contains d = true → st.useLanguage = some d) :
    processChunk "auto" true true st c =
      if sensevoiceOptimalLanguages.contains d
      then sseEmit { st with chunkCount := st.chunkCount + 1 } "sensevoice" d c.svText
      else sseEmit { st with chunkCount := st.chunkCount + 1 } "whisper" d c.whText := by
  simp only [processChunk]
  rw [if_neg (by omega : ¬ c.len ≤ 16000)]
  rw [if_neg (by simp; omega)]
  exact sseRouteAndEmit_steady d _ c (by simpa using h2) (fun h => by simpa using h3 h)

theorem sse_foldl_steady (d : String) (chunks : List Chunk) :
    ∀ st : SSEState, (∀ x ∈ chunks, 16000 < x.len) → st.chunkCount ≠ 0 →
      st.detectedLanguage = some d →
      (sensevoiceOptimalLanguages.contains d = true → st.useLanguage = some d) →
      (chunks.foldl (processChunk "auto" true true) st).detectCalls = st.detectCalls ∧
      (chunks.foldl (processChunk "auto" true true) st).detectedLanguage = some d ∧
      (chunks.foldl (processChunk "auto" true true) st).routes =
        st.routes ++ chunks.map (fun _ =>
          if sensevoiceOptimalLanguages.contains d
          then ("sensevoice", (some d : Option String))
          else ("whisper", (some d : Option String))) := by
  induction chunks with
  | nil =>
    intro st _ _ h2 _
    simp [h2]
  | cons c rest ih =>
    intro st hall h1 h2 h3
    have hc := hall c (List.mem_cons_self c rest)
    rw [List.foldl_cons, processChunk_steady d st c hc h1 h2 h3]
    by_cases hd : sensevoiceOptimalLanguages.contains d
    · rw [if_pos hd]
      obtain ⟨e1, e2, e3, e4, e5⟩ :=
        sseEmit_fields { st with chunkCount := st.chunkCount + 1 } "sensevoice" d c.svText
      obtain ⟨f1, f2, f3⟩ :=
        ih (sseEmit { st with chunkCount := st.chunkCount + 1 } "sensevoice" d c.svText)
          (fun x hx => hall x (List.mem_cons_of_mem c hx))
          (by rw [e4]; simp)
          (by rw [e2]; simpa using h2)
          (fun h => by rw [e3]; simpa using h3 h)
      refine ⟨?_, f2, ?_⟩
      · rw [f1, e1]
      · rw [f3, e5]
        have hdm : d ∈ sensevoiceOptimalLanguages := by simpa using hd
        simp [hdm]
    · rw [if_neg hd]
      obtain ⟨e1, e2, e3, e4, e5⟩ :=
        sseEmit_fields { st with chunkCount := st.chunkCount + 1 } "whisper" d c.whText
      obtain ⟨f1, f2, f3⟩ :=
        ih (sseEmit { st with chunkCount := st.chunkCount + 1 } "whisper" d c.whText)
          (fun x hx => hall x (List.mem_cons_of_mem c hx))
          (by rw [e4]; simp)
          (by rw [e2]; simpa using h2)
          (fun h => by rw [e3]; simpa using h3 h)
      refine ⟨?_, f2, ?_⟩
      · rw [f1, e1]
      · rw [f3, e5]
        have hdm : d ∉ sensevoiceOptimalLanguages := by simpa using hd
        simp [hdm]

theorem runSSE_auto (c : Chunk) (rest : List Chunk)
    (hc : 16000 < c.len) (hrest : ∀ x ∈ rest, 16000 < x.len) :
    (runSSE "auto" true true true (c :: rest)).detectCalls = 1 ∧
    (runSSE "auto" true true true (c :: rest)).detectedLanguage =
      some (detect_language true c.detection) ∧
    (runSSE "auto" true true true (c :: rest)).routes =
      (c :: rest).map (fun _ =>
        if sensevoiceOptimalLanguages.contains (detect_language true c.detection)
        then ("sensevoice", (some (detect_language true c.detection) : Option String))
        else ("whisper", some (detect_language true c.detection))) := by
  have hrun : runSSE "auto" true true true (c :: rest) =
      List.foldl (processChunk "auto" true true)
        (processChunk "auto" true true ⟨0, [], none, none, 0, [], []⟩ c) rest := rfl
  have hstep : processChunk "auto" true true ⟨0, [], none, none, 0, [], []⟩ c =
      if sensevoiceOptimalLanguages.contains (detect_language true c.detection)
      then sseEmit ⟨1, [], some (detect_language true c.detection),
             some (detect_language true c.detection), 1, [], []⟩
             "sensevoice" (detect_language true c.detection) c.svText
      else sseEmit ⟨1, [], none, some (detect_language true c.detection), 1, [], []⟩
             "whisper" (detect_language true c.detection) c.whText := by
    simp only [processChunk]
    rw [if_neg (by omega : ¬ c.len ≤ 16000)]
    rw [if_pos (⟨trivial, trivial, trivial⟩ : True ∧ True ∧ True)]
    by_cases hd : sensevoiceOptimalLanguages.contains (detect_language true c.detection)
    · rw [if_pos hd, if_pos hd,
        sseRouteAndEmit_steady (detect_language true c.detection) _ c rfl (fun _ => rfl),
        if_pos hd]
    · rw [if_neg hd, if_neg hd]
  rw [hrun, hstep]
  by_cases hd : sensevoiceOptimalLanguages.contains (detect_language true c.detection)
  · rw [if_pos hd]
    obtain ⟨e1, e2, e3, e4, e5⟩ := sseEmit_fields
      ⟨1, [], some (detect_language true c.detection),
        some (detect_language true c.detection), 1, [], []⟩
      "sensevoice" (detect_language true c.detection) c.svText
    obtain ⟨f1, f2, f3⟩ := sse_foldl_steady (detect_language true c.detection) rest _
      hrest (by rw [e4]; exact one_ne_zero) (by rw [e2]) (fun _ => by rw [e3])
    refine ⟨?_, f2, ?_⟩
    · rw [f1, e1]
    · rw [f3, e5]
      have hdm : detect_language true c.detection ∈ sensevoiceOptimalLanguages := by
        simpa using hd
      simp [hdm]
  · rw [if_neg hd]
    obtain ⟨e1, e2, e3, e4, e5⟩ := sseEmit_fields
      ⟨1, [], none, some (detect_language true c.detection), 1, [], []⟩
      "whisper" (detect_language true c.detection) c.whText
    obtain ⟨f1, f2, f3⟩ := sse_foldl_steady (detect_language true c.detection) rest _
      hrest (by rw [e4]; exact one_ne_zero) (by rw [e2])
      (fun h => absurd h (by simpa using hd))
    refine ⟨?_, f2, ?_⟩
    · rw [f1, e1]
    · rw [f3, e5]
      have hdm : detect_language true c.detection ∉ sensevoiceOptimalLanguages := by
        simpa using hd
      simp [hdm]

/-- C6: for an auto job with a working Whisper transcriber, `detect_language`
is invoked exactly once — on the first transcribable chunk — and the
resulting language pins the backend for that chunk and every later one:
a SenseVoice-optimal detection routes every chunk to SenseVoice with the
detected language, any other detection routes every chunk to Whisper with
the detected language. -/
theorem c6_auto_detects_once_and_pins_backend (c : Chunk) (rest : List Chunk)
    (hc : 16000 < c.len) (hrest : ∀ x ∈ rest, 16000 < x.len) :
    (runSSE "auto" true true true (c :: rest)).detectCalls = 1 ∧
    (runSSE "auto" true true true (c :: rest)).detectedLanguage =
      some (detect_language true c.detection) ∧
    (runSSE "auto" true true true (c :: rest)).routes =
      (c :: rest).map (fun _ =>
        if sensevoiceOptimalLanguages.contains (detect_language true c.detection)
        then ("sensevoice", (some (detect_language true c.detection) : Option String))
        else ("whisper", some (detect_language true c.detection))) :=
  runSSE_auto c rest hc hrest

/-- Witness for C6: a two-chunk auto job whose first chunk detects `zh`
(all definitions evaluate on these inputs). -/
theorem c6_auto_detects_once_and_pins_backend_witness :
    (16000 < (⟨32000, some "zh", some "nihao", some "hi"⟩ : Chunk).len ∧
      ∀ x ∈ [(⟨32000, some "zh", some "dajiahao", some "hey"⟩ : Chunk)], 16000 < x.len) ∧
    ((runSSE "auto" true true true
        [⟨32000, some "zh", some "nihao", some "hi"⟩,
         ⟨32000, some "zh", some "dajiahao", some "hey"⟩]).detectCalls = 1 ∧
      (runSSE "auto" true true true
        [⟨32000, some "zh", some "nihao", some "hi"⟩,
         ⟨32000, some "zh", some "dajiahao", some "hey"⟩]).detectedLanguage =
        some (detect_language true (some "zh")) ∧
      (runSSE "auto" true true true
        [⟨32000, some "zh", some "nihao", some "hi"⟩,
         ⟨32000, some "zh", some "dajiahao", some "hey"⟩]).routes =
        [(⟨32000, some "zh", some "nihao", some "hi"⟩ : Chunk),
         ⟨32000, some "zh", some "dajiahao", some "hey"⟩].map (fun _ =>
          if sensevoiceOptimalLanguages.contains (detect_language true (some "zh"))
          then ("sensevoice", (some (detect_language true (some "zh")) : Option String))
          else ("whisper", some (detect_language true (some "zh"))))) :=
  ⟨⟨by decide, by simp⟩,
    c6_auto_detects_once_and_pins_backend ⟨32000, some "zh", some "nihao", some "hi"⟩
      [⟨32000, some "zh", some "dajiahao", some "hey"⟩] (by decide) (by simp)⟩

/-- C7 counterexample: when the detection body fails internally on the
first chunk of an auto job, `detect_language` swallows the failure and
returns `en` (whisper_transcription.py:106-108), which is not
SenseVoice-optimal — so the job resolves to `en` and the chunk is routed
to Whisper, not to SenseVoice with `zh` as the claim states. -/
theorem c7_detection_failure_counterexample :
    detect_language true none = "en" ∧
    (runSSE "auto" true true true
        [⟨32000, none, some "sv text", some "wh text"⟩]).detectedLanguage = some "en" ∧
    (runSSE "auto" true true true
        [⟨32000, none, some "sv text", some "wh text"⟩]).routes =
      [("whisper", some "en")] ∧
    sensevoiceOptimalLanguages.contains "en" = false := by
  refine ⟨rfl, ?_, ?_, by decide⟩ <;> rfl

/-- C7 amended: an internal failure of the backend detection call on the
first segment of an auto job results in `detect_language` returning `en`,
so the job's resolved language is `en` and every segment is routed to the
Whisper backend with `en`; the `zh`/SenseVoice default of
app.py:1293-1296 would apply only if the detection call raised to its
caller, which `detect_language`'s own catch-all prevents (the `zh`
fallback is reachable only when constructing the Whisper transcriber
fails, app.py:1248-1250). -/
theorem c7_detection_failure_routes_whisper_en (c : Chunk) (rest : List Chunk)
    (hc : 16000 < c.len) (hrest : ∀ x ∈ rest, 16000 < x.len)
    (hfail : c.detection = none) :
    (runSSE "auto" true true true (c :: rest)).detectedLanguage = some "en" ∧
    (runSSE "auto" true true true (c :: rest)).routes =
      (c :: rest).map (fun _ => ("whisper", (some "en" : Option String))) := by
  obtain ⟨h1, h2, h3⟩ := runSSE_auto c rest hc hrest
  have hd : detect_language true c.detection = "en" := by rw [hfail]; rfl
  rw [hd] at h2 h3
  refine ⟨h2, ?_⟩
  rw [h3, if_neg (by decide : ¬ sensevoiceOptimalLanguages.contains "en" = true)]

/-- Witness for C7's amended statement: a single chunk whose detection
fails internally. -/
theorem c7_detection_failure_routes_whisper_en_witness :
    (16000 < (⟨32000, none, some "sv text", some "wh text"⟩ : Chunk).len ∧
      (⟨32000, none, some "sv text", some "wh text"⟩ : Chunk).detection = none) ∧
    ((runSSE "auto" true true true
        [⟨32000, none, some "sv text", some "wh text"⟩]).detectedLanguage = some "en" ∧
      (runSSE "auto" true true true
        [⟨32000, none, some "sv text", some "wh text"⟩]).routes =
        [(⟨32000, none, some "sv text", some "wh text"⟩ : Chunk)].map
          (fun _ => ("whisper", (some "en" : Option String)))) :=
  ⟨⟨by decide, rfl⟩,
    c7_detection_failure_routes_whisper_en ⟨32000, none, some "sv text", some "wh text"⟩
      [] (by decide) (by simp) rfl⟩

/-- C8 counterexample: in the Whisper streaming generator a transcription
result that strips to the single character `a` is appended to the
transcript list and yielded as an SSE chunk, while the app's own filter
would have dropped it. -/
theorem c8_single_char_emitted_counterexample :
    whisperGenHandleResult [] (some "a") = (["a"], some "a") ∧
    (pyStrip "a").length = 1 ∧
    appTextFilter (some "a") = none := by
  refine ⟨by decide, by decide, by decide⟩

/-- C8 amended: the auto/SenseVoice streaming path in app.py drops a
segment's text exactly when it strips to the empty string or to a single
character, but the Whisper streaming generator drops only text that
strips to the empty string — a single-character text is emitted as a
chunk and appended to the accumulated transcript there. -/
theorem c8_text_filter_paths (t : String) :
    ((appTextFilter (some t)).isSome = true ↔ 1 < (pyStrip t).length) ∧
    ((whisperGenTextFilter (some t)).isSome = true ↔ pyStrip t ≠ "") ∧
    (∀ ts : List String, pyStrip t ≠ "" →
        whisperGenHandleResult ts (some t) = (ts ++ [pyStrip t], some (pyStrip t))) := by
  have hstrip_empty : pyStrip "" = "" := rfl
  have hlen_empty : ("" : String).length = 0 := rfl
  have hne_of_ne : ∀ u : String, pyStrip u ≠ "" → u ≠ "" := by
    intro u hs hu
    rw [hu] at hs
    exact hs hstrip_empty
  refine ⟨?_, ?_, ?_⟩
  · unfold appTextFilter
    dsimp only
    by_cases ht : t = ""
    · subst ht
      rw [if_neg (show ¬ ("" : String) ≠ "" by simp)]
      simp [hstrip_empty, hlen_empty]
    · rw [if_pos ht]
      by_cases hlen : 1 < (pyStrip t).length
      · have hs : pyStrip t ≠ "" := by
          intro he
          rw [he, hlen_empty] at hlen
          omega
        rw [if_pos ⟨hs, hlen⟩]
        simp [hlen]
      · rw [if_neg (fun hc => hlen hc.2)]
        simp [hlen]
  · unfold whisperGenTextFilter
    dsimp only
    by_cases ht : t = ""
    · subst ht
      rw [if_neg (show ¬ ("" : String) ≠ "" by simp)]
      simp [hstrip_empty]
    · rw [if_pos ht]
      by_cases hs : pyStrip t ≠ ""
      · rw [if_pos hs]
        simp [hs]
      · rw [if_neg hs]
        simp [hs]
  · intro ts hs
    unfold whisperGenHandleResult whisperGenTextFilter
    dsimp only
    rw [if_pos (hne_of_ne t hs), if_pos hs]

/-- Witness for C8's amended statement at concrete texts: `" a "` strips
to the single character `a`, is kept by the generator's filter and
dropped by the app's filter. -/
theorem c8_text_filter_paths_witness :
    whisperGenHandleResult ["x"] (some " a ") = (["x", "a"], some "a") ∧
    (appTextFilter (some " a ")).isSome = false := by
  constructor
  · have h := (c8_text_filter_paths " a ").2.2 ["x"] (by decide)
    rwa [show pyStrip " a " = "a" from rfl] at h
  · have h := (c8_text_filter_paths " a ").1
    cases hs : (appTextFilter (some " a ")).isSome
    · rfl
    · exact absurd (h.mp hs) (by decide)
